import Mathlib

/-!
Shallow embedding of the Mini Store application (src/app.py): a Streamlit
e-commerce demo with MongoDB persistence, bcrypt password hashing, user and
admin authentication, a product catalog, a session cart, and order placement.

Modelling conventions:
* MongoDB collections become Lean lists of documents; `insert_one` appends,
  `find_one` is `List.find?` (first match in natural/insertion order).
  Generated ObjectIds are modelled as the index the document receives at
  insertion time.
* Python floats are modelled as rational numbers together with an explicit
  IEEE-754 binary64 round-to-nearest-even operation `roundDouble`, applied
  after every arithmetic operation, exactly as the hardware does for values
  in the normal range (all values appearing in this development are normal).
* bcrypt is an external library; it is modelled at its interface: a hash blob
  records the password and salt it was produced from, `checkpw` succeeds with
  a boolean on a well-formed blob and raises on a malformed one. Fresh salts
  are threaded as explicit parameters (the source calls `bcrypt.gensalt()`).
* Streamlit session state (`st.session_state`) becomes an explicit `Session`
  record; each button handler becomes a function from session and database
  state to new session and database state. A raised exception aborts the
  Streamlit script run before any later mutation, so a failing persistence
  call leaves both states unchanged.
-/

namespace MiniStore

/-! ## IEEE-754 binary64 value model

Python's `float` is a binary64. We represent float *values* as the exact
rationals they denote, and each arithmetic operation rounds its exact result
with `roundDouble` (round to nearest, ties to even, 53-bit significand).
Subnormals and overflow are outside the range exercised here and are not
modelled. -/

/-- Base-2 logarithm on naturals by structural recursion on a fuel bound, so
that the kernel can evaluate it on literals. -/
def log2Fuel : Nat → Nat → Nat
  | 0, _ => 0
  | fuel + 1, n => if 2 ≤ n then log2Fuel fuel (n / 2) + 1 else 0

/-- Floor of the base-2 logarithm of a positive natural below 2 ^ 256. -/
def natLog2 (n : Nat) : Nat := log2Fuel 256 n

/-- The exact product of two rationals, computed on numerators and denominators
through the reducible smart constructor `Rat.divInt` (the `Mul ℚ` instance is
irreducible, which would block proof-by-evaluation). Provably equal to `a * b`,
see `qmul_eq_mul`. -/
def qmul (a b : ℚ) : ℚ :=
  Rat.divInt (a.num * b.num) ((a.den : ℤ) * (b.den : ℤ))

/-- The exact sum of two rationals, computed on numerators and denominators.
Provably equal to `a + b`, see `qadd_eq_add`. -/
def qadd (a b : ℚ) : ℚ :=
  Rat.divInt (a.num * (b.den : ℤ) + b.num * (a.den : ℤ)) ((a.den : ℤ) * (b.den : ℤ))

/-- Round a positive rational to the nearest binary64 value (round to nearest,
ties to even, 53-bit significand), assuming the result is in the normal range.
All intermediate arithmetic is on the numerator and denominator so that the
kernel can evaluate it: `l` is the floor of the base-2 logarithm of `q`,
`N / D` is `q` scaled by `2 ^ s` into the significand range `[2 ^ 52, 2 ^ 53)`,
and `mant` is that scaled value rounded to the nearest integer, ties to even. -/
def roundPos (q : ℚ) : ℚ :=
  let n : Nat := q.num.toNat
  let d : Nat := q.den
  let l0 : ℤ := (natLog2 n : ℤ) - (natLog2 d : ℤ)
  let l : ℤ := if n * 2 ^ (-l0).toNat < d * 2 ^ l0.toNat then l0 - 1 else l0
  let s : ℤ := 52 - l
  let N : Nat := n * 2 ^ s.toNat
  let D : Nat := d * 2 ^ (-s).toNat
  let f : Nat := N / D
  let rem : Nat := N % D
  let mant : Nat :=
    if 2 * rem < D then f
    else if D < 2 * rem then f + 1
    else if f % 2 = 0 then f else f + 1
  Rat.divInt ((mant * 2 ^ (-s).toNat : Nat) : ℤ) ((2 ^ s.toNat : Nat) : ℤ)

/-- Round an exact rational result to the nearest binary64 value. -/
def roundDouble (q : ℚ) : ℚ :=
  if 0 < q.num then roundPos q
  else if q.num = 0 then 0
  else -roundPos (-q)

/-- Binary64 addition: exact sum, then rounding (see `fadd_eq`). -/
def fadd (a b : ℚ) : ℚ := roundDouble (qadd a b)

/-- Binary64 multiplication: exact product, then rounding (see `fmul_eq`). -/
def fmul (a b : ℚ) : ℚ := roundDouble (qmul a b)

/-! ## bcrypt model (external library boundary)

`bcrypt.hashpw(password, gensalt())` produces a blob from which `checkpw`
can recover whether a candidate password matches; `checkpw` raises (e.g.
`ValueError: Invalid salt`) when the blob is not a well-formed bcrypt hash. -/

/-- A bcrypt hash blob: either a well-formed hash (recording the password and
the salt used) or malformed bytes that make `checkpw` raise. -/
inductive Blob where
  | valid (password : String) (salt : Nat)
  | malformed (raw : String)
  deriving DecidableEq, Repr

/-- bcrypt.checkpw: on a well-formed blob, reports whether the candidate
password matches; on a malformed blob it raises (modelled as `Except.error`). -/
def bcryptCheckpw (password : String) (blob : Blob) : Except String Bool :=
  match blob with
  | .valid pw _ => .ok (password == pw)
  | .malformed _ => .error "Invalid salt"

/-! ## Documents and database state (src/app.py collections) -/

/-- A document of the `users` collection: src/app.py inserts
`{"username": ..., "password": hashed, "role": ...}`. The `role` field is
optional because `authenticate` reads it with `user.get("role", "user")`,
tolerating stored documents that lack it. `id` models the generated `_id`. -/
structure UserDoc where
  id : Nat
  username : String
  password : Blob
  role : Option String
  deriving DecidableEq, Repr

/-- A document of the `products` collection: `{"name": name, "price": float(price)}`
plus the generated `_id`. -/
structure ProductDoc where
  id : Nat
  name : String
  price : ℚ
  deriving DecidableEq, Repr

/-- A cart item as built by the store page:
`{"product_id": ..., "name": ..., "price": float(...), "qty": int(...)}`.
`qty` is optional because `place_order` reads it with `item.get("qty", 1)`. -/
structure CartItem where
  product_id : String
  name : String
  price : ℚ
  qty : Option Nat
  deriving DecidableEq, Repr

/-- A document of the `orders` collection (src/app.py lines 97-103). -/
structure OrderDoc where
  user_id : Nat
  username : String
  items : List CartItem
  total : ℚ
  status : String
  deriving DecidableEq, Repr

/-- The three collections of the `streamlit_store` database. -/
structure DB where
  users : List UserDoc
  products : List ProductDoc
  orders : List OrderDoc
  deriving DecidableEq, Repr

/-! ## Helper functions (src/app.py lines 64-105) -/

/-- hash_password (line 64): `bcrypt.hashpw(password.encode(), bcrypt.gensalt())`.
The fresh salt from `gensalt()` is passed explicitly. -/
def hash_password (password : String) (salt : Nat) : Blob :=
  Blob.valid password salt

/-- check_password (line 67): calls `bcrypt.checkpw` and returns `False` on any
exception, so it is a total boolean function. -/
def check_password (password : String) (hashed : Blob) : Bool :=
  match bcryptCheckpw password hashed with
  | .ok b => b
  | .error _ => false

/-- create_user (line 73): rejects an existing username, otherwise hashes the
password and inserts `{"username", "password", "role"}`. Returns the
`(ok, message)` pair of the source. -/
def create_user (db : DB) (username password : String) (salt : Nat)
    (role : String := "user") : DB × Bool × String :=
  match db.users.find? (fun u => u.username == username) with
  | some _ => (db, false, "User already exists!")
  | none =>
      ({ db with
         users := db.users ++
           [{ id := db.users.length, username := username,
              password := hash_password password salt, role := some role }] },
       true, "✅ User created successfully!")

/-- create_product (line 80): inserts `{"name": name, "price": float(price)}`
unconditionally and returns `True`. The price argument is already a float
value in this model, so `float(price)` is the identity. -/
def create_product (db : DB) (name : String) (price : ℚ) : DB × Bool :=
  ({ db with
     products := db.products ++ [{ id := db.products.length, name := name, price := price }] },
   true)

/-- list_products (line 84): all products in natural (insertion) order. -/
def list_products (db : DB) : List ProductDoc :=
  db.products

/-- The identity record returned by a successful authenticate:
`{"_id": str(user["_id"]), "username": ..., "role": user.get("role", "user")}`. -/
structure AuthUser where
  id : Nat
  username : String
  role : String
  deriving DecidableEq, Repr

/-- authenticate (line 87): looks the user up by username; returns `None` when
absent or when the password check fails; on success returns id, username and
role, the role defaulting to "user" when the stored document has none. -/
def authenticate (db : DB) (username password : String) : Option AuthUser :=
  match db.users.find? (fun u => u.username == username) with
  | none => none
  | some user =>
      if check_password password user.password then
        some { id := user.id, username := user.username, role := user.role.getD "user" }
      else
        none

/-- The order total of place_order (line 96):
`sum(item["price"] * item.get("qty", 1) for item in cart_items)`. Python's
`sum` folds `+` from the left starting at 0; each `*` and `+` on floats
rounds to binary64. -/
def orderTotal (cart_items : List CartItem) : ℚ :=
  cart_items.foldl (fun acc item => fadd acc (fmul item.price ((item.qty.getD 1 : Nat) : ℚ))) 0

/-- A persistence failure of `orders_col.insert_one` (the Mongo driver raises). -/
inductive PersistErr where
  | unavailable
  deriving DecidableEq, Repr

/-- orders_col.insert_one for place_order, with an explicit flag for whether
the backend call succeeds; on failure the driver raises and nothing is stored. -/
def insert_order (db : DB) (o : OrderDoc) (ok : Bool) : Except PersistErr DB :=
  if ok then .ok { db with orders := db.orders ++ [o] } else .error .unavailable

/-- place_order (line 95): computes the total, builds the order document and
inserts it; returns the order. `ok` models whether the insert succeeds —
when it does not, the exception propagates to the caller. -/
def place_order (db : DB) (user_id : Nat) (username : String)
    (cart_items : List CartItem) (ok : Bool := true) :
    Except PersistErr (DB × OrderDoc) :=
  let total := orderTotal cart_items
  let order : OrderDoc :=
    { user_id := user_id, username := username, items := cart_items,
      total := total, status := "placed" }
  match insert_order db order ok with
  | .ok db' => .ok (db', order)
  | .error e => .error e

/-! ## Startup backend selection (src/app.py get_db, lines 10-50) -/

/-- Startup failure: get_db shows an error and calls `st.stop()`, halting the
script, when no MongoDB URI is found (lines 29-31). -/
inductive StartupError where
  | missingUri
  deriving DecidableEq, Repr

/-- The persistence backend constructed at startup. The source constructs a
`MongoClient` over the configured URI; it has no other backend. -/
inductive Backend where
  | documentStore (uri : String)
  deriving DecidableEq, Repr

/-- get_db backend selection (lines 29-33): `if not mongodb_uri` is Python
truthiness, so the script halts via `st.stop()` both when no URI is found
(None) and when the configured URI is the empty string; otherwise a
MongoClient over the URI is the (only) backend. The admin-bootstrap step that
follows on the selected backend is claim-irrelevant and not repeated here. -/
def get_db (mongodb_uri : Option String) : Except StartupError Backend :=
  match mongodb_uri with
  | none => .error .missingUri
  | some uri => if uri = "" then .error .missingUri else .ok (.documentStore uri)

/-! ## Session state and UI event handlers (src/app.py lines 110-258)

`st.session_state` holds `page` ("login" / "admin" / "store", the spec's
LoggedOut / AdminHome / StoreHome), `user` and `cart`. Each button handler is
a function of the session and database state. -/

/-- The Streamlit session state initialised at lines 112-117. -/
structure Session where
  page : String
  user : Option AuthUser
  cart : List CartItem
  deriving DecidableEq, Repr

/-- The initial session state: page "login", no user, empty cart. -/
def initSession : Session :=
  { page := "login", user := none, cart := [] }

/-- logout (line 119): clears the user and the cart and returns to the login
page, from any state. Reached from the top-bar Logout button and both
"Back to Login" buttons. -/
def logout (_s : Session) : Session :=
  { user := none, cart := [], page := "login" }

/-- The login-page and logout events the workflow controller reacts to. -/
inductive Event where
  | adminLogin (username password : String)
  | userLogin (username password : String)
  | logoutClick
  deriving DecidableEq, Repr

/-- The session transition for a login or logout event. "Login as Admin"
(lines 147-154) requires a successful authenticate with role "admin" to move
to the admin page; "Login as User" (lines 160-167) requires role "user" to
move to the store page; any other outcome only shows an error message and
leaves the session unchanged. Logout always resets to the initial state. -/
def step (db : DB) (s : Session) : Event → Session
  | .adminLogin u p =>
      match authenticate db u p with
      | some au =>
          if au.role == "admin" then { s with user := some au, page := "admin" } else s
      | none => s
  | .userLogin u p =>
      match authenticate db u p with
      | some au =>
          if au.role == "user" then { s with user := some au, page := "store" } else s
      | none => s
  | .logoutClick => logout s

/-- The "✅ Place Order" handler (lines 248-252): only rendered when the cart
is non-empty; calls place_order and then clears the cart. If the insert
raises (ok = false), the script aborts before the cart assignment, leaving
session and database unchanged; likewise a missing user would raise at
`user["_id"]` before any mutation. -/
def placeOrderClick (s : Session) (db : DB) (ok : Bool) : Session × DB :=
  if s.cart.isEmpty then (s, db)
  else
    match s.user with
    | none => (s, db)
    | some u =>
        match place_order db u.id u.username s.cart ok with
        | .ok (db', _) => ({ s with cart := [] }, db')
        | .error _ => (s, db)

/-! ## Spec-side definition for the refinement comparison of the order total -/

/-- Follows the spec's words, for comparison with `orderTotal`:
"compute_total(items) -> decimal: sum of unit_price × quantity over all
items; must use exact decimal arithmetic, not floating-point". -/
def decimalTotal (items : List CartItem) : ℚ :=
  (items.map (fun item => item.price * ((item.qty.getD 1 : Nat) : ℚ))).sum

/-- Whether a list of user documents has pairwise-distinct usernames. -/
def uniqueUsernames (l : List UserDoc) : Prop :=
  l.Pairwise (fun a b => a.username ≠ b.username)

/-! ## Concrete fixtures used to instantiate the theorems -/

/-- A database with empty collections. -/
def dbEmpty : DB := { users := [], products := [], orders := [] }

/-- A stored user "alice" with hashed password "pw". -/
def aliceDoc : UserDoc :=
  { id := 0, username := "alice", password := Blob.valid "pw" 0, role := some "user" }

/-- A database whose only user is alice. -/
def dbAlice : DB := { users := [aliceDoc], products := [], orders := [] }

/-- A stored admin "root". -/
def rootDoc : UserDoc :=
  { id := 0, username := "root", password := Blob.valid "secret" 0, role := some "admin" }

/-- A stored user "bob". -/
def bobDoc : UserDoc :=
  { id := 1, username := "bob", password := Blob.valid "hunter2" 1, role := some "user" }

/-- A database with an admin and a regular user. -/
def dbStore : DB := { users := [rootDoc, bobDoc], products := [], orders := [] }

/-- A stored user "carol" whose document has no role field. -/
def carolDoc : UserDoc :=
  { id := 0, username := "carol", password := Blob.valid "pw" 0, role := none }

/-- A database whose only user document lacks the role field. -/
def dbCarol : DB := { users := [carolDoc], products := [], orders := [] }

/-- Cart line: Shirt at 299, quantity 2. -/
def shirtItem : CartItem := { product_id := "0", name := "Shirt", price := 299, qty := some 2 }

/-- Cart line: Shoes at 999, quantity 1. -/
def shoesItem : CartItem := { product_id := "1", name := "Shoes", price := 999, qty := some 1 }

/-- Cart line whose unit price is the binary64 value of the Python literal 0.1
(the float actually stored after `float(...)` conversion), quantity 3. -/
def tenthItem : CartItem :=
  { product_id := "2", name := "Widget", price := roundDouble (Rat.divInt 1 10), qty := some 3 }

/-- The identity token authenticate returns for bob. -/
def bobAuth : AuthUser := { id := 1, username := "bob", role := "user" }

/-- A store-page session for bob with one item in the cart. -/
def bobSession : Session := { page := "store", user := some bobAuth, cart := [shirtItem] }

/-! ## Faithfulness of the numerator/denominator arithmetic -/

/-- The defensive product `qmul` is exactly multiplication on ℚ. -/
theorem qmul_eq_mul (a b : ℚ) : qmul a b = a * b := by
  rw [qmul, Rat.divInt_eq_div]
  push_cast
  rw [← div_mul_div_comm, Rat.num_div_den, Rat.num_div_den]

/-- The sum `qadd` is exactly addition on ℚ. -/
theorem qadd_eq_add (a b : ℚ) : qadd a b = a + b := by
  rw [qadd, Rat.divInt_eq_div]
  have ha : ((a.den : ℚ)) ≠ 0 := Nat.cast_ne_zero.mpr a.den_nz
  have hb : ((b.den : ℚ)) ≠ 0 := Nat.cast_ne_zero.mpr b.den_nz
  conv_rhs => rw [← Rat.num_div_den a, ← Rat.num_div_den b]
  rw [div_add_div _ _ ha hb]
  push_cast
  ring_nf

/-- Binary64 addition is the rounding of the exact sum. -/
theorem fadd_eq (a b : ℚ) : fadd a b = roundDouble (a + b) := by
  rw [fadd, qadd_eq_add]

/-- Binary64 multiplication is the rounding of the exact product. -/
theorem fmul_eq (a b : ℚ) : fmul a b = roundDouble (a * b) := by
  rw [fmul, qmul_eq_mul]

/-! ## Claim C1: startup backend selection -/

/-- C1 counterexample: with no connection string, get_db does not select any
backend at all — it halts startup with an error (`st.stop()`), so the claimed
in-memory fallback does not exist and no persistence operation can run. -/
theorem get_db_no_uri_halts :
    get_db none = Except.error StartupError.missingUri ∧ (get_db none).isOk = false :=
  ⟨rfl, rfl⟩

/-- C1 (amended): at process start, a connection string that is absent or
empty (Python falsy) halts initialization with an error; a non-empty
connection string selects the document-store backend, the only backend the
program has. -/
theorem get_db_backend_selection :
    get_db none = Except.error StartupError.missingUri ∧
    get_db (some "") = Except.error StartupError.missingUri ∧
    ∀ uri : String, uri ≠ "" →
      get_db (some uri) = Except.ok (Backend.documentStore uri) := by
  refine ⟨rfl, rfl, ?_⟩
  intro uri h
  simp [get_db, h]

/-- C1 witness: a concrete non-empty URI selects the document store. -/
theorem get_db_backend_selection_witness :
    get_db (some "mongodb+srv://db") = Except.ok (Backend.documentStore "mongodb+srv://db") :=
  get_db_backend_selection.2.2 "mongodb+srv://db" (by decide)

/-! ## Claim C2: place_order on an empty item list -/

/-- C2 counterexample: place_order with an empty item list does not fail with
EmptyCart — it succeeds and persists one order document with total 0. -/
theorem place_order_empty_cart_persists :
    place_order dbEmpty 0 "bob" [] true =
      Except.ok
        ({ users := [],
           products := [],
           orders := [{ user_id := 0, username := "bob", items := [], total := 0,
                        status := "placed" }] },
         { user_id := 0, username := "bob", items := [], total := 0, status := "placed" }) :=
  rfl

/-- C2 (amended): for every user_id, username and item list — the empty list
included — place_order (with the insert succeeding) computes the total,
persists exactly one order document, and returns it; there is no empty-cart
check in place_order itself (the UI only renders the Place Order button when
the session cart is non-empty). -/
theorem place_order_persists_each_call :
    ∀ (db : DB) (uid : Nat) (un : String) (items : List CartItem),
      place_order db uid un items true =
        Except.ok
          ({ db with
             orders := db.orders ++
               [{ user_id := uid, username := un, items := items,
                  total := orderTotal items, status := "placed" }] },
           { user_id := uid, username := un, items := items,
             total := orderTotal items, status := "placed" }) :=
  fun _ _ _ _ => rfl

/-! ## Claim C3: create_product validation -/

/-- C3 counterexample: create_product with an empty name and a negative price
does not fail with InvalidInput — it inserts the product and returns true. -/
theorem create_product_accepts_invalid :
    create_product dbEmpty "" (-1) =
      ({ users := [],
         products := [{ id := 0, name := "", price := -1 }],
         orders := [] }, true) :=
  rfl

/-- C3 (amended): create_product performs no validation: for every name and
price, empty names and negative prices included, it inserts the product and
returns True (a success flag, not the created product); the admin form
separately rejects empty names and its price widget enforces a non-negative
minimum, but create_product itself accepts anything. -/
theorem create_product_no_validation :
    ∀ (db : DB) (name : String) (price : ℚ),
      create_product db name price =
        ({ db with
           products := db.products ++
             [{ id := db.products.length, name := name, price := price }] }, true) :=
  fun _ _ _ => rfl

/-! ## Claim C4: the order total computation -/

/-- C4 counterexample: the order total is computed in binary64 floating-point,
not exact decimal arithmetic. For a single line item whose unit price is the
float stored for the literal 0.1 and whose quantity is 3, the code's total
(0.30000000000000004) differs from the exact sum of unit_price × quantity. -/
theorem orderTotal_not_exact_decimal :
    orderTotal [tenthItem] ≠ decimalTotal [tenthItem] := by
  have h1 : orderTotal [tenthItem] = mkRat 1351079888211149 4503599627370496 := by decide
  have hp : roundDouble (Rat.divInt 1 10) = mkRat 3602879701896397 36028797018963968 := by
    decide
  have h2 : decimalTotal [tenthItem] = roundDouble (Rat.divInt 1 10) * 3 := by
    simp [decimalTotal, tenthItem]
  rw [h1, h2, hp, Rat.mkRat_eq_div, Rat.mkRat_eq_div]
  norm_num

/-- C4 (amended): the order total is the sum of unit_price × quantity computed
in binary64 floating-point arithmetic (Python float), each multiplication and
addition rounding to nearest; for the items [price 299 × qty 2, price 999 ×
qty 1] all intermediate values are exactly representable and the total is
exactly 1597; and every order persisted by place_order carries as its total
exactly this computed sum over its line items at creation time. -/
theorem orderTotal_binary64_and_persisted :
    orderTotal [shirtItem, shoesItem] = 1597 ∧
    ∀ (db : DB) (uid : Nat) (un : String) (items : List CartItem),
      (place_order db uid un items true).map (fun r => r.2.total) =
        Except.ok (orderTotal items) :=
  ⟨by decide, fun _ _ _ _ => rfl⟩

/-! ## Claim C5: atomicity of a successful order and the cart clear -/

/-- C5: the Place Order handler is a single logical step. With a logged-in user
and a non-empty cart: when the insert succeeds, exactly one order is appended
and the cart is reset to empty while the page (store state) is unchanged; when
the insert fails, the raised exception aborts the handler before the cart
assignment, so session and database are both completely unchanged. -/
theorem place_order_click_atomic :
    ∀ (s : Session) (db : DB) (u : AuthUser), s.user = some u → s.cart ≠ [] →
      placeOrderClick s db true =
        ({ s with cart := [] },
         { db with
           orders := db.orders ++
             [{ user_id := u.id, username := u.username, items := s.cart,
                total := orderTotal s.cart, status := "placed" }] }) ∧
      (placeOrderClick s db true).1.page = s.page ∧
      placeOrderClick s db false = (s, db) := by
  intro s db u hu hc
  have he : s.cart.isEmpty = false := by
    cases h : s.cart with
    | nil => exact absurd h hc
    | cons a l => rfl
  refine ⟨?_, ?_, ?_⟩ <;>
    simp [placeOrderClick, place_order, insert_order, hu, he]

/-- C5 witness: bob's store session with one cart item, run against the
two-user database, with the insert failing and succeeding respectively. -/
theorem place_order_click_atomic_witness :
    placeOrderClick bobSession dbStore false = (bobSession, dbStore) ∧
    (placeOrderClick bobSession dbStore true).1.cart = [] := by
  have h := place_order_click_atomic bobSession dbStore bobAuth rfl (by decide)
  exact ⟨h.2.2, by rw [h.1]⟩

/-! ## Claim C6: create_user duplicate handling and uniqueness -/

/-- C6: create_user fails with the duplicate-user message and leaves the
database (hence the stored record for that username) unchanged whenever a user
with the username exists; otherwise it appends exactly one document carrying
the hashed password and reports success; consequently pairwise username
uniqueness is preserved by every create_user call. -/
theorem create_user_checks_duplicates :
    ∀ (db : DB) (username password : String) (salt : Nat),
      ((∃ d ∈ db.users, d.username = username) →
        create_user db username password salt = (db, false, "User already exists!")) ∧
      (db.users.find? (fun d => d.username == username) = none →
        create_user db username password salt =
          ({ db with
             users := db.users ++
               [{ id := db.users.length, username := username,
                  password := Blob.valid password salt, role := some "user" }] },
           true, "✅ User created successfully!")) ∧
      (uniqueUsernames db.users →
        uniqueUsernames (create_user db username password salt).1.users) := by
  intro db un pw salt
  refine ⟨?_, ?_, ?_⟩
  · rintro ⟨d, hd, hname⟩
    cases hfind : db.users.find? (fun x => x.username == un) with
    | some e => simp [create_user, hfind]
    | none =>
        rw [List.find?_eq_none] at hfind
        exact absurd (by simpa using hname) (hfind d hd)
  · intro hfind
    simp [create_user, hfind, hash_password]
  · intro huniq
    cases hfind : db.users.find? (fun x => x.username == un) with
    | some e => simpa [create_user, hfind] using huniq
    | none =>
        have hall := List.find?_eq_none.mp hfind
        simp only [create_user, hfind]
        rw [uniqueUsernames, List.pairwise_append]
        refine ⟨huniq, List.pairwise_singleton _ _, ?_⟩
        intro a ha b hb
        simp only [List.mem_singleton] at hb
        subst hb
        intro heq
        exact absurd (by simpa using heq) (hall a ha)

/-- C6 witness: creating "alice" again fails with the duplicate message, the
stored record is unchanged, and uniqueness of usernames is preserved. -/
theorem create_user_checks_duplicates_witness :
    create_user dbAlice "alice" "other" 1 = (dbAlice, false, "User already exists!") ∧
    uniqueUsernames (create_user dbAlice "alice" "other" 1).1.users := by
  have h := create_user_checks_duplicates dbAlice "alice" "other" 1
  exact ⟨h.1 ⟨aliceDoc, by simp [dbAlice], rfl⟩,
    h.2.2 (by simp [uniqueUsernames, dbAlice])⟩

/-! ## Claim C7: indistinguishable authentication failures -/

/-- C7: a failing authenticate for an unknown username and a failing
authenticate for a known username with a wrong password return the identical
value (None), so the caller cannot distinguish NotFound from BadPassword. -/
theorem authenticate_failure_uniform :
    ∀ (db : DB) (u1 p1 u2 p2 : String),
      db.users.find? (fun d => d.username == u1) = none →
      (∃ d, db.users.find? (fun d => d.username == u2) = some d ∧
        check_password p2 d.password = false) →
      authenticate db u1 p1 = authenticate db u2 p2 ∧
        authenticate db u1 p1 = none := by
  rintro db u1 p1 u2 p2 h1 ⟨d, h2, h3⟩
  simp [authenticate, h1, h2, h3]

/-- C7 witness: against the alice database, authenticate("nobody", "x") and
authenticate("alice", "wrong") return the same generic failure. -/
theorem authenticate_failure_uniform_witness :
    authenticate dbAlice "nobody" "x" = authenticate dbAlice "alice" "wrong" ∧
    authenticate dbAlice "nobody" "x" = none :=
  authenticate_failure_uniform dbAlice "nobody" "x" "alice" "wrong" (by decide)
    ⟨aliceDoc, by decide, by decide⟩

/-! ## Claim C8: password hashing round-trip and total verification -/

/-- C8: for every password and every fresh salt, verifying the password
against its own hash succeeds; and on any malformed hash blob check_password
returns false rather than raising (the source catches every exception from
bcrypt.checkpw and returns False; the model is a total boolean function). -/
theorem check_password_roundtrip_total :
    (∀ (p : String) (salt : Nat), check_password p (hash_password p salt) = true) ∧
    (∀ (p raw : String), check_password p (Blob.malformed raw) = false) := by
  refine ⟨?_, ?_⟩
  · intro p salt
    simp [check_password, hash_password, bcryptCheckpw]
  · intro p raw
    rfl

/-! ## Claim C9: the login/logout state machine -/

/-- C9: from the login page, the admin-login event reaches the admin page
exactly when authentication succeeds with role "admin", and the user-login
event reaches the store page exactly when it succeeds with role "user"; any
login event either leaves the whole session unchanged (failed credentials or
mismatched role — so a non-admin never reaches the admin page) or installs
the authenticated user and the matching page; and logout, from any state,
clears the cart unconditionally and returns to the initial logged-out state. -/
theorem login_state_machine :
    (∀ (db : DB) (s : Session) (u p : String), s.page = "login" →
      ((step db s (Event.adminLogin u p)).page = "admin" ↔
        ∃ au, authenticate db u p = some au ∧ au.role = "admin")) ∧
    (∀ (db : DB) (s : Session) (u p : String), s.page = "login" →
      ((step db s (Event.userLogin u p)).page = "store" ↔
        ∃ au, authenticate db u p = some au ∧ au.role = "user")) ∧
    (∀ (db : DB) (s : Session) (u p : String),
      step db s (Event.adminLogin u p) = s ∨
        ∃ au, authenticate db u p = some au ∧ au.role = "admin" ∧
          step db s (Event.adminLogin u p) = { s with user := some au, page := "admin" }) ∧
    (∀ (db : DB) (s : Session) (u p : String),
      step db s (Event.userLogin u p) = s ∨
        ∃ au, authenticate db u p = some au ∧ au.role = "user" ∧
          step db s (Event.userLogin u p) = { s with user := some au, page := "store" }) ∧
    (∀ (db : DB) (s : Session), step db s Event.logoutClick = initSession) := by
  refine ⟨?_, ?_, ?_, ?_, fun db s => rfl⟩
  · intro db s u p hpage
    constructor
    · intro hres
      cases hauth : authenticate db u p with
      | none =>
          simp [step, hauth] at hres
          rw [hpage] at hres
          exact absurd hres (by decide)
      | some au =>
          by_cases hrole : au.role = "admin"
          · exact ⟨au, rfl, hrole⟩
          · have hb : (au.role == "admin") = false := beq_eq_false_iff_ne.mpr hrole
            simp [step, hauth, hb] at hres
            rw [hpage] at hres
            exact absurd hres (by decide)
    · rintro ⟨au, hauth, hrole⟩
      simp [step, hauth, hrole]
  · intro db s u p hpage
    constructor
    · intro hres
      cases hauth : authenticate db u p with
      | none =>
          simp [step, hauth] at hres
          rw [hpage] at hres
          exact absurd hres (by decide)
      | some au =>
          by_cases hrole : au.role = "user"
          · exact ⟨au, rfl, hrole⟩
          · have hb : (au.role == "user") = false := beq_eq_false_iff_ne.mpr hrole
            simp [step, hauth, hb] at hres
            rw [hpage] at hres
            exact absurd hres (by decide)
    · rintro ⟨au, hauth, hrole⟩
      simp [step, hauth, hrole]
  · intro db s u p
    cases hauth : authenticate db u p with
    | none => exact Or.inl (by simp [step, hauth])
    | some au =>
        by_cases hrole : au.role = "admin"
        · exact Or.inr ⟨au, rfl, hrole, by simp [step, hauth, hrole]⟩
        · have hb : (au.role == "admin") = false := beq_eq_false_iff_ne.mpr hrole
          exact Or.inl (by simp [step, hauth, hb])
  · intro db s u p
    cases hauth : authenticate db u p with
    | none => exact Or.inl (by simp [step, hauth])
    | some au =>
        by_cases hrole : au.role = "user"
        · exact Or.inr ⟨au, rfl, hrole, by simp [step, hauth, hrole]⟩
        · have hb : (au.role == "user") = false := beq_eq_false_iff_ne.mpr hrole
          exact Or.inl (by simp [step, hauth, hb])

/-- C9 witness: root's admin login reaches the admin page, and logout from
bob's store session (with a non-empty cart) returns to the initial state. -/
theorem login_state_machine_witness :
    (step dbStore initSession (Event.adminLogin "root" "secret")).page = "admin" ∧
    step dbStore bobSession Event.logoutClick = initSession := by
  have h := login_state_machine
  exact ⟨(h.1 dbStore initSession "root" "secret" rfl).mpr
    ⟨{ id := 0, username := "root", role := "admin" }, by decide, rfl⟩,
    h.2.2.2.2 dbStore bobSession⟩

/-! ## Claim C10: role defaulting at the identity boundary -/

/-- C10: when the stored user document found for a username has no role field
and the password check succeeds, authenticate returns the user with role
"user": the role defaults to "user" at the identity boundary. -/
theorem authenticate_defaults_role_user :
    ∀ (db : DB) (u p : String) (d : UserDoc),
      db.users.find? (fun x => x.username == u) = some d →
      d.role = none →
      check_password p d.password = true →
      authenticate db u p =
        some { id := d.id, username := d.username, role := "user" } := by
  intro db u p d hfind hrole hpw
  simp [authenticate, hfind, hpw, hrole]

/-- C10 witness: carol's document has no role field; authenticating with her
correct password yields role "user". -/
theorem authenticate_defaults_role_user_witness :
    authenticate dbCarol "carol" "pw" =
      some { id := 0, username := "carol", role := "user" } :=
  authenticate_defaults_role_user dbCarol "carol" "pw" carolDoc (by decide) rfl (by decide)

end MiniStore
